import Mathlib

/-!
Shallow embedding of tasks/statutes.py: conversion of GPO FDSys STATUTE
volume metadata into per-bill records. Every definition mirrors the source
file; the handful of helpers that live in other repository modules
(bill_info, which is not under src/) are modelled from the spec and say so
in their doc comments. Machine behaviour that would raise a Python
exception (KeyError, NameError) is made explicit through the
ItemResult.crash constructor.
-/

namespace Statutes

/-- A mods:bill element: attributes congress, type, number (statutes.py lines 173-175). -/
structure BillElem where
  congress : String
  type : String
  number : String
  deriving DecidableEq, Repr

/-- A mods:law element: attributes congress, number, isPrivate (lines 218-220). -/
structure LawElem where
  congress : String
  number : String
  isPrivate : String
  deriving DecidableEq, Repr

/-- A mods:congCommittee element: chamber attribute and nested name (lines 149-154). -/
structure CommitteeRef where
  chamber : String
  name : String
  deriving DecidableEq, Repr

/-- One entry of the titles list (lines 117-121). -/
structure TitleRec where
  title : String
  as_ : String
  type : String
  deriving DecidableEq, Repr

/-- One entry of the committees list (lines 156-160). -/
structure CommitteeInfo where
  committee : String
  activity : List String
  committee_id : Option String
  deriving DecidableEq, Repr

/-- The source/provenance dict (lines 181-189). -/
structure SourceRec where
  source : String
  package_id : String
  access_id : String
  source_url : String
  volume : String
  page : String
  position : String
  deriving DecidableEq, Repr

/-- One action dict (lines 199-210 for the vote shape, 222-232 for the enacted
shape). Keys present in only one of the two shapes are Option. The field
`where_` is the Python dict key "where" (a reserved word in Lean). -/
structure Action where
  type : String
  vote_type : Option String
  where_ : Option String
  result : Option String
  how : Option String
  congress : Option String
  number : Option String
  law : Option String
  text : Option String
  acted_at : String
  status : String
  references : List String
  deriving DecidableEq, Repr

/-- One mods:relatedItem of a volume, with the fields proc_statute reads.
Fields read unconditionally with .text are plain String (a missing element
would crash in Python before any branching, so items are modelled with them
present); optional elements are Option. -/
structure Item where
  title : String
  descriptor : Option String
  granuleClass : String
  accessId : String
  granuleDate : String
  isProposedAmendment : Option String
  congCommittee : Option CommitteeRef
  bills : List BillElem
  sourceUrl : String
  volume : String
  page : String
  pagePosition : String
  laws : List LawElem
  originChamber : String
  pdfUrl : String
  deriving DecidableEq, Repr

/-- The canonical bill record bill_data (lines 243-274). -/
structure BillData where
  bill_id : String
  bill_type : String
  number : String
  congress : String
  introduced_at : Option String
  sponsor : Option String
  cosponsors : List String
  actions : List Action
  history : List String
  status : String
  status_at : String
  enacted_as : Option (String × String × String)
  titles : List TitleRec
  official_title : Option String
  short_title : Option String
  popular_title : Option String
  subjects_top_term : Option String
  subjects : List String
  related_bills : List String
  committees : List CommitteeInfo
  amendments : List String
  sources : List SourceRec
  updated_at : String
  deriving DecidableEq, Repr

/-- The bill_version dict (lines 282-287); urls_pdf is the single "pdf" key of urls. -/
structure BillVersion where
  bill_version_id : String
  version_code : String
  issued_on : String
  urls_pdf : String
  deriving DecidableEq, Repr

/-- One output record written by the loop body: bill_info.output_bill (line 276)
or the utils.write of the version stub (lines 289-292). -/
inductive Output where
  | bill (bd : BillData)
  | version (bv : BillVersion)
  deriving DecidableEq, Repr

/-- The loop-carried local variables of proc_statute that persist between
iterations: law_congress (only ever assigned at line 218, hence Option: none
models the unbound state that raises NameError at line 237) and the
plaintext flag (line 101, cleared at line 301). -/
structure LoopState where
  lawCongress : Option String
  plaintext : Bool
  deriving DecidableEq, Repr

/-- Result of one loop iteration: either an uncaught Python exception
(aborts the whole volume) or normal completion with the records written,
the logging.error messages emitted, the number of pdftotext invocations
attempted, and the updated loop state. -/
inductive ItemResult where
  | crash (msg : String) (logs : List String)
  | ok (outputs : List Output) (logs : List String) (tries : Nat) (st : LoopState)
  deriving DecidableEq, Repr

def ItemResult.outputs : ItemResult → List Output
  | .crash _ _ => []
  | .ok o _ _ _ => o

/-- logging.error messages emitted while handling the item; a crash keeps the
messages already emitted before the exception was raised. -/
def ItemResult.logs : ItemResult → List String
  | .crash _ l => l
  | .ok _ l _ _ => l

def ItemResult.tries : ItemResult → Nat
  | .crash _ _ => 0
  | .ok _ _ t _ => t

def ItemResult.isCrash : ItemResult → Bool
  | .crash _ _ => true
  | .ok _ _ _ _ => false

/-- Python str.capitalize(): first character upper-cased, the rest lower-cased
(used at line 227). -/
def capitalize (s : String) : String :=
  match s.data with
  | [] => ""
  | c :: cs => String.mk (c.toUpper :: cs.map Char.toLower)

/-- Python str.lower() (line 174). -/
def lowerStr (s : String) : String :=
  String.mk (s.data.map Char.toLower)

/-- Python title.replace('""', '"') (line 115): left-to-right, non-overlapping. -/
def unescapeChars : List Char → List Char
  | [] => []
  | '\"' :: '\"' :: rest => '\"' :: unescapeChars rest
  | c :: rest => c :: unescapeChars rest

def unescapeTitle (s : String) : String :=
  String.mk (unescapeChars s.data)

/-- Modelled from the spec: bill_info.latest_status is in the repository's
bill_info module, which is not under src/. The spec says the status-derivation
collaborator, given the ordered Action list, returns the current status and
status date; the current status is that of the latest action. -/
def latest_status (actions : List Action) : String × String :=
  actions.foldl (fun _ a => (a.status, a.acted_at)) ("", "")

/-- Modelled from the spec: bill_info.history_from_actions (not under src/)
returns the canonical history entries derived from the action list. -/
def history_from_actions (actions : List Action) : List String :=
  actions.map (fun a => a.status)

/-- Modelled from the spec: bill_info.slip_law_from (not under src/) returns
the "enacted as" slip-law citation derived from the enacted action. -/
def slip_law_from (actions : List Action) : Option (String × String × String) :=
  (actions.find? (fun a => a.type == "enacted")).map
    (fun a => (a.law.getD "", a.congress.getD "", a.number.getD ""))

/-- Modelled from the spec: bill_info.current_title_for (not under src/)
returns the currently-effective title of the given title type. -/
def current_title_for (titles : List TitleRec) (ttype : String) : Option String :=
  ((titles.filter (fun t => t.type == ttype)).getLast?).map (fun t => t.title)

/-- The chambers dict at line 152; a chamber code outside the dict is a
Python KeyError, modelled as none. -/
def chamberName (c : String) : Option String :=
  if c = "H" then some "House" else
  if c = "S" then some "Senate" else
  if c = "J" then some "Joint" else none

/-- utils.committee_names lookup (line 159): None when the name is absent. -/
def lookupName (names : List (String × String)) (k : String) : Option String :=
  (names.find? (fun p => p.1 == k)).map (fun p => p.2)

/-- Committee extraction, lines 147-162. Returns none exactly when the source
would raise KeyError on an unknown chamber code. -/
def extractCommittees (names : List (String × String)) (item : Item) :
    Option (List CommitteeInfo) :=
  match item.congCommittee with
  | none => some []
  | some cc =>
    match chamberName cc.chamber with
    | none => none
    | some ch =>
      let committee := ch ++ " " ++ cc.name
      some [⟨committee, [], lookupName names committee⟩]

/-- The other_chamber dict at line 197; any other originChamber text is a
Python KeyError, modelled as none. -/
def otherChamber (c : String) : Option String :=
  if c = "HOUSE" then some "s" else
  if c = "SENATE" then some "h" else none

/-- The congress-mismatch log message, line 238. -/
def mismatchMsg (bill_type bill_number bill_congress law_congress : String) : String :=
  "Congress mismatch for " ++ bill_type ++ bill_number ++ ": " ++ bill_congress ++
    " or " ++ law_congress ++ "?"

/-- The vote action dict built at lines 199-210 for law-less resolutions and
amendments. -/
def mkVoteAction (w date gclass : String) : Action :=
  { type := "vote", vote_type := some "vote2", where_ := some w,
    result := some "pass", how := some "unknown",
    congress := none, number := none, law := none, text := none,
    acted_at := date,
    status := if gclass = "CONSTAMEND" then "PASSED:CONSTAMEND" else "PASSED:CONCURRENTRES",
    references := [] }

/-- law_type at line 220. -/
def lawTypeOf (l : LawElem) : String :=
  if l.isPrivate = "true" then "private" else "public"

/-- The enacted action dict built at lines 222-232. -/
def mkEnactedAction (l : LawElem) (date : String) : Action :=
  { type := "enacted", vote_type := none, where_ := none, result := none, how := none,
    congress := some l.congress, number := some l.number, law := some (lawTypeOf l),
    text := some ("Became " ++ capitalize (lawTypeOf l) ++ " Law No: " ++
      l.congress ++ "-" ++ l.number ++ "."),
    acted_at := date, status := "ENACTED:SIGNED", references := [] }

/-- bill_data assembly, lines 241-274. -/
def mkBillData (now : String) (titles : List TitleRec) (subject : Option String)
    (committees : List CommitteeInfo) (sources : List SourceRec)
    (bill_type : String) (b : BillElem) (action : Action) : BillData :=
  let actions := [action]
  let stp := latest_status actions
  { bill_id := bill_type ++ b.number ++ "-" ++ b.congress,
    bill_type := bill_type, number := b.number, congress := b.congress,
    introduced_at := none, sponsor := none, cosponsors := [],
    actions := actions, history := history_from_actions actions,
    status := stp.1, status_at := stp.2,
    enacted_as := slip_law_from actions,
    titles := titles,
    official_title := current_title_for titles "official",
    short_title := current_title_for titles "short",
    popular_title := current_title_for titles "popular",
    subjects_top_term := subject, subjects := [],
    related_bills := [], committees := committees, amendments := [],
    sources := sources, updated_at := now }

/-- bill_version assembly, lines 279-287. -/
def mkBillVersion (bill_type : String) (b : BillElem) (pdf status_date : String) :
    BillVersion :=
  { bill_version_id := bill_type ++ b.number ++ "-" ++ b.congress ++ "-" ++ "enr",
    version_code := "enr", issued_on := status_date, urls_pdf := pdf }

/-- The output tail of the loop body (lines 241-301): write the bill record
and the version stub, then optionally invoke pdftotext. toolMissing models
pdftotext being absent (OSError errno 2, logged at line 75, re-raised at 77,
caught at lines 299-301 which clear the plaintext flag). -/
def produce (toolMissing : Bool) (now : String) (preLogs : List String)
    (newLC : Option String) (st : LoopState) (titles : List TitleRec)
    (subject : Option String) (committees : List CommitteeInfo)
    (sources : List SourceRec) (bill_type : String) (b : BillElem)
    (item : Item) (action : Action) : ItemResult :=
  let bd := mkBillData now titles subject committees sources bill_type b action
  let bv := mkBillVersion bill_type b item.pdfUrl (latest_status [action]).2
  if st.plaintext then
    if toolMissing then
      .ok [.bill bd, .version bv] (preLogs ++ ["pdftotext not available"]) 1 ⟨newLC, false⟩
    else
      .ok [.bill bd, .version bv] preLogs 1 ⟨newLC, true⟩
  else
    .ok [.bill bd, .version bv] preLogs 0 ⟨newLC, st.plaintext⟩

/-- The body of the per-item loop of proc_statute, lines 112-301. -/
def processItem (toolMissing : Bool) (now packageId : String)
    (names : List (String × String)) (st : LoopState) (item : Item) : ItemResult :=
  let title := unescapeTitle item.title
  let titles : List TitleRec := [⟨title, "enacted", "official"⟩]
  if ¬ (item.granuleClass ∈ ["PUBLICLAW", "PRIVATELAW", "HCONRES", "SCONRES", "CONSTAMEND"]) then
    .ok [] [] 0 st
  else if item.granuleClass = "CONSTAMEND" ∧ item.isProposedAmendment = none then
    -- Source line 143 also tests  is_proposed_amendment == "false" , but that
    -- compares the lxml Element object itself (never its text) to a string,
    -- which is always False; so only absence of the element triggers the skip.
    .ok [] ["Ratified: " ++ title] 0 st
  else
    match extractCommittees names item with
    | none => .crash "KeyError: chamber" []
    | some committees =>
      match item.bills with
      | [] => .ok [] ["Could not get bill data for " ++ item.accessId ++ ": " ++ title] 0 st
      | b :: brest =>
        let billLogs := if brest = [] then ([] : List String)
          else ["Multiple bills associated with " ++ item.accessId]
        let bill_type := lowerStr b.type
        let bill_id := bill_type ++ b.number ++ "-" ++ b.congress
        let sources : List SourceRec :=
          [⟨"statutes", packageId, item.accessId, item.sourceUrl, item.volume,
            item.page, item.pagePosition⟩]
        match item.laws with
        | [] =>
          if item.granuleClass ∈ ["HCONRES", "SCONRES", "CONSTAMEND"] then
            match otherChamber item.originChamber with
            | none => .crash "KeyError: originChamber" billLogs
            | some w =>
              let action := mkVoteAction w item.granuleDate item.granuleClass
              match st.lawCongress with
              | none => .crash "NameError: law_congress" billLogs
              | some lc =>
                if lc ≠ b.congress then
                  .ok [] (billLogs ++ [mismatchMsg bill_type b.number b.congress lc]) 0 st
                else
                  produce toolMissing now billLogs st.lawCongress st titles
                    item.descriptor committees sources bill_type b item action
          else
            .ok [] (billLogs ++ ["Could not get law data for " ++ bill_id ++ ": " ++ title]) 0 st
        | l :: lrest =>
          let lawLogs := if lrest = [] then ([] : List String)
            else ["Multiple laws associated with " ++ bill_id]
          let action := mkEnactedAction l item.granuleDate
          if l.congress ≠ b.congress then
            .ok [] (billLogs ++ lawLogs ++ [mismatchMsg bill_type b.number b.congress l.congress])
              0 ⟨some l.congress, st.plaintext⟩
          else
            produce toolMissing now (billLogs ++ lawLogs) (some l.congress) st titles
              item.descriptor committees sources bill_type b item action

/-- Aggregate result of a whole volume: records written, errors logged,
pdftotext invocations, and whether an uncaught exception aborted the loop
(earlier items' writes persist; the crashing item writes nothing, since every
crash point precedes its outputs). -/
structure VolResult where
  outputs : List Output
  logs : List String
  tries : Nat
  crashed : Bool
  deriving DecidableEq, Repr

/-- The item loop of proc_statute, threading the loop-carried locals. -/
def processItems (toolMissing : Bool) (now packageId : String)
    (names : List (String × String)) (st : LoopState) : List Item → VolResult
  | [] => ⟨[], [], 0, false⟩
  | item :: rest =>
    match processItem toolMissing now packageId names st item with
    | .crash _ logs => ⟨[], logs, 0, true⟩
    | .ok outs logs t st' =>
      let r := processItems toolMissing now packageId names st' rest
      ⟨outs ++ r.outputs, logs ++ r.logs, t + r.tries, r.crashed⟩

/-- One call of proc_statute on a volume: line 101 re-reads the plaintext
option, and law_congress starts unbound. -/
def processVolume (toolMissing : Bool) (now packageId : String)
    (names : List (String × String)) (optPlaintext : Bool) (items : List Item) : VolResult :=
  processItems toolMissing now packageId names ⟨none, optPlaintext⟩ items

/-- utils.process_set over the selected volumes (line 66): proc_statute is
called afresh on each volume, so each volume re-initialises its locals. -/
def processRun (toolMissing : Bool) (now packageId : String)
    (names : List (String × String)) (optPlaintext : Bool)
    (vols : List (List Item)) : List VolResult :=
  vols.map (processVolume toolMissing now packageId names optPlaintext)

/-- One downloadable volume directory, identified by its year and volume
number (the archive layout root/year/STATUTE-volume). -/
structure Batch where
  year : Nat
  volume : Nat
  deriving DecidableEq, Repr

/-- xrange(int(start), int(end)+1) as the inclusive list of unit numbers
(lines 52 and 59). -/
def rangeIncl (s e : Nat) : List Nat :=
  (List.range (e + 1 - s)).map (fun i => s + i)

/-- The --volumes=start-end selection, lines 49-53: for each v in the
inclusive range, append the batches whose volume number matches. -/
def selectVolumes (s e : Nat) (avail : List Batch) : List Batch :=
  ((rangeIncl s e).map (fun v => avail.filter (fun b => b.volume == v))).flatten

/-- The --years=start-end selection, lines 56-60. -/
def selectYears (s e : Nat) (avail : List Batch) : List Batch :=
  ((rangeIncl s e).map (fun y => avail.filter (fun b => b.year == y))).flatten

end Statutes

namespace Statutes

/-- A qualifying public-law item: bill (82, HR, 1), law (82, 100, public). -/
def sampleLaw : Item :=
  ⟨"An Act", some "Subj", "PUBLICLAW", "PLAW-82pg1", "1951-10-20", none, none,
   [⟨"82", "HR", "1"⟩], "srcurl", "65", "1", "1", [⟨"82", "100", "false"⟩], "HOUSE", "pdfurl"⟩

/-- A front-matter item (granuleClass outside the processed set). -/
def sampleFront : Item :=
  ⟨"Front", none, "FRONTMATTER", "FM-1", "1951-01-01", none, none, [], "s", "65", "1", "1",
   [], "HOUSE", "p"⟩

/-- A Senate concurrent resolution with no law sub-record. -/
def sampleRes : Item :=
  ⟨"A Res", none, "SCONRES", "RES-1", "1951-02-02", none, none,
   [⟨"82", "SCON", "5"⟩], "s", "65", "2", "1", [], "SENATE", "p2"⟩

/-- A constitutional-amendment item whose isProposedAmendment element is
present with the value "false", plus a matching bill/law pair. -/
def sampleCAFalse : Item :=
  ⟨"Amdt", none, "CONSTAMEND", "CA-1", "1951-03-03", some "false", none,
   [⟨"82", "HJRES", "3"⟩], "s", "65", "3", "1", [⟨"82", "7", "false"⟩], "HOUSE", "p3"⟩

/-- An item with two bill sub-records (congress 82) and a law with congress 83. -/
def sampleTwoBill : Item :=
  ⟨"T", none, "PUBLICLAW", "PL-2", "1951-04-04", none, none,
   [⟨"82", "HR", "2"⟩, ⟨"82", "HR", "3"⟩], "s", "65", "4", "1",
   [⟨"83", "101", "false"⟩], "HOUSE", "p4"⟩

/-- Is an output record a Bill Record (as opposed to a version stub)? -/
def Output.isBill : Output → Bool
  | .bill _ => true
  | .version _ => false

/-- A qualifying public-law item with no bill sub-record at all. -/
def sampleNoBill : Item :=
  ⟨"NoBill", none, "PUBLICLAW", "NB-1", "1951-06-06", none, none, [], "s", "65", "8", "1",
   [⟨"82", "102", "false"⟩], "HOUSE", "p8"⟩

/-- The first Bill Record among the output records, if any. -/
def firstBill : List Output → Option BillData
  | [] => none
  | .bill bd :: _ => some bd
  | .version _ :: rest => firstBill rest

/-- The Bill Record produced for the sample public-law item. -/
def sampleBillRecord : BillData :=
  mkBillData "now" [⟨"An Act", "enacted", "official"⟩] (some "Subj") []
    [⟨"statutes", "pkg", "PLAW-82pg1", "srcurl", "65", "1", "1"⟩] "hr"
    ⟨"82", "HR", "1"⟩ (mkEnactedAction ⟨"82", "100", "false"⟩ "1951-10-20")

theorem mem_rangeIncl {s e v : Nat} : v ∈ rangeIncl s e ↔ s ≤ v ∧ v ≤ e := by
  simp only [rangeIncl, List.mem_map, List.mem_range]
  constructor
  · rintro ⟨i, hi, rfl⟩
    omega
  · rintro ⟨h1, h2⟩
    exact ⟨v - s, by omega, by omega⟩

theorem mem_selectVolumes {s e : Nat} {avail : List Batch} {b : Batch} :
    b ∈ selectVolumes s e avail ↔ b ∈ avail ∧ s ≤ b.volume ∧ b.volume ≤ e := by
  simp only [selectVolumes, List.mem_flatten, List.mem_map]
  constructor
  · rintro ⟨l, ⟨v, hv, rfl⟩, hb⟩
    rw [List.mem_filter] at hb
    obtain ⟨hmem, hvol⟩ := hb
    rw [beq_iff_eq] at hvol
    subst hvol
    exact ⟨hmem, mem_rangeIncl.mp hv⟩
  · rintro ⟨hb, h1, h2⟩
    refine ⟨avail.filter (fun x => x.volume == b.volume),
      ⟨b.volume, mem_rangeIncl.mpr ⟨h1, h2⟩, rfl⟩, ?_⟩
    rw [List.mem_filter]
    exact ⟨hb, by simp⟩

theorem mem_selectYears {s e : Nat} {avail : List Batch} {b : Batch} :
    b ∈ selectYears s e avail ↔ b ∈ avail ∧ s ≤ b.year ∧ b.year ≤ e := by
  simp only [selectYears, List.mem_flatten, List.mem_map]
  constructor
  · rintro ⟨l, ⟨v, hv, rfl⟩, hb⟩
    rw [List.mem_filter] at hb
    obtain ⟨hmem, hyear⟩ := hb
    rw [beq_iff_eq] at hyear
    subst hyear
    exact ⟨hmem, mem_rangeIncl.mp hv⟩
  · rintro ⟨hb, h1, h2⟩
    refine ⟨avail.filter (fun x => x.year == b.year),
      ⟨b.year, mem_rangeIncl.mpr ⟨h1, h2⟩, rfl⟩, ?_⟩
    rw [List.mem_filter]
    exact ⟨hb, by simp⟩

/-- C7: a volume-range or year-range selection includes exactly the available
batches whose unit number lies between the endpoints, inclusive on both ends;
a selection matching zero batches is the valid empty list, not an error. -/
theorem C7_selector_ranges_inclusive :
    (∀ (s e : Nat) (avail : List Batch) (b : Batch),
      b ∈ selectVolumes s e avail ↔ b ∈ avail ∧ s ≤ b.volume ∧ b.volume ≤ e) ∧
    (∀ (s e : Nat) (avail : List Batch) (b : Batch),
      b ∈ selectYears s e avail ↔ b ∈ avail ∧ s ≤ b.year ∧ b.year ≤ e) ∧
    (∀ (s e : Nat) (avail : List Batch),
      selectVolumes s e avail = [] ↔ ∀ b ∈ avail, ¬ (s ≤ b.volume ∧ b.volume ≤ e)) := by
  refine ⟨fun s e avail b => mem_selectVolumes, fun s e avail b => mem_selectYears,
    fun s e avail => ?_⟩
  rw [List.eq_nil_iff_forall_not_mem]
  constructor
  · intro h b hb hrange
    exact h b (mem_selectVolumes.mpr ⟨hb, hrange⟩)
  · intro h b hb
    obtain ⟨hmem, hrange⟩ := mem_selectVolumes.mp hb
    exact h b hmem hrange

/-- C7 witness: volume 3 of an available listing is selected by the inclusive
range 3-5, and a range matching nothing yields the empty list. -/
theorem C7_selector_ranges_inclusive_witness :
    (⟨1951, 3⟩ : Batch) ∈ selectVolumes 3 5 [⟨1951, 3⟩] ∧
    selectVolumes 5 3 [⟨1951, 4⟩] = [] := by
  constructor
  · exact (C7_selector_ranges_inclusive.1 3 5 [⟨1951, 3⟩] ⟨1951, 3⟩).mpr
      (by constructor <;> simp)
  · exact (C7_selector_ranges_inclusive.2.2 5 3 [⟨1951, 4⟩]).mpr (by intro b hb; simp at hb; omega)

end Statutes
namespace Statutes

/-- C5: every embedded item whose class tag is outside PUBLICLAW, PRIVATELAW,
HCONRES, SCONRES, CONSTAMEND is skipped with no output records, no logged
error, and unchanged loop state; consequently the sample document holding one
front-matter item and one qualifying law item yields exactly one Bill Record. -/
theorem C5_other_classes_skipped :
    (∀ (tm : Bool) (now pk : String) (names : List (String × String)) (st : LoopState)
      (item : Item),
      ¬ (item.granuleClass ∈ ["PUBLICLAW", "PRIVATELAW", "HCONRES", "SCONRES", "CONSTAMEND"]) →
      processItem tm now pk names st item = .ok [] [] 0 st) ∧
    ((processVolume false "now" "pkg" [] false [sampleFront, sampleLaw]).outputs.countP
      Output.isBill = 1) := by
  constructor
  · intro tm now pk names st item h
    simp only [processItem]
    rw [if_pos h]
  · decide

/-- C5 witness: a concrete proclamation-class item is skipped with no output
and no logged error. -/
theorem C5_other_classes_skipped_witness :
    processItem false "now" "pkg" [] ⟨none, false⟩
      ⟨"P", none, "PROCLAMATION", "PR-1", "1951-05-05", none, none, [], "s", "65", "9", "1",
       [], "HOUSE", "p9"⟩ = .ok [] [] 0 ⟨none, false⟩ :=
  C5_other_classes_skipped.1 false "now" "pkg" [] ⟨none, false⟩ _ (by decide)

end Statutes
namespace Statutes

theorem produce_outputs (tm : Bool) (now : String) (preLogs : List String)
    (newLC : Option String) (st : LoopState) (titles : List TitleRec)
    (subject : Option String) (cs : List CommitteeInfo) (sources : List SourceRec)
    (bill_type : String) (b : BillElem) (item : Item) (action : Action) :
    (produce tm now preLogs newLC st titles subject cs sources bill_type b item action).outputs =
      [.bill (mkBillData now titles subject cs sources bill_type b action),
       .version (mkBillVersion bill_type b item.pdfUrl (latest_status [action]).2)] := by
  unfold produce
  by_cases h1 : st.plaintext <;> by_cases h2 : tm <;> simp [h1, h2, ItemResult.outputs]

theorem produce_logs (tm : Bool) (now : String) (preLogs : List String)
    (newLC : Option String) (st : LoopState) (titles : List TitleRec)
    (subject : Option String) (cs : List CommitteeInfo) (sources : List SourceRec)
    (bill_type : String) (b : BillElem) (item : Item) (action : Action) :
    (produce tm now preLogs newLC st titles subject cs sources bill_type b item action).logs =
      preLogs ++ (if st.plaintext && tm then ["pdftotext not available"] else []) := by
  unfold produce
  by_cases h1 : st.plaintext <;> by_cases h2 : tm <;> simp [h1, h2, ItemResult.logs]

/-- C6: for processed items, an empty bill sub-record list skips the item
with exactly one logged error and no output; with more than one bill
sub-record a data-anomaly error is logged and every produced Bill Record is
keyed by the first sub-record's type+number-congress. -/
theorem C6_bill_reference_extraction :
    (∀ (tm : Bool) (now pk : String) (names : List (String × String)) (st : LoopState)
      (item : Item) (cs : List CommitteeInfo),
      item.granuleClass ∈ ["PUBLICLAW", "PRIVATELAW", "HCONRES", "SCONRES", "CONSTAMEND"] →
      ¬ (item.granuleClass = "CONSTAMEND" ∧ item.isProposedAmendment = none) →
      extractCommittees names item = some cs →
      item.bills = [] →
      processItem tm now pk names st item =
        .ok [] ["Could not get bill data for " ++ item.accessId ++ ": " ++
          unescapeTitle item.title] 0 st) ∧
    (∀ (tm : Bool) (now pk : String) (names : List (String × String)) (st : LoopState)
      (item : Item) (cs : List CommitteeInfo) (b b2 : BillElem) (rest : List BillElem),
      item.granuleClass ∈ ["PUBLICLAW", "PRIVATELAW", "HCONRES", "SCONRES", "CONSTAMEND"] →
      ¬ (item.granuleClass = "CONSTAMEND" ∧ item.isProposedAmendment = none) →
      extractCommittees names item = some cs →
      item.bills = b :: b2 :: rest →
      ("Multiple bills associated with " ++ item.accessId) ∈
        (processItem tm now pk names st item).logs ∧
      (∀ bd : BillData, Output.bill bd ∈ (processItem tm now pk names st item).outputs →
        bd.bill_id = lowerStr b.type ++ b.number ++ "-" ++ b.congress)) := by
  constructor
  · intro tm now pk names st item cs hclass hflag hcomm hbills
    simp only [processItem]
    rw [if_neg (not_not_intro hclass), if_neg hflag, hcomm, hbills]
  · intro tm now pk names st item cs b b2 rest hclass hflag hcomm hbills
    constructor
    · simp only [processItem]
      rw [if_neg (not_not_intro hclass), if_neg hflag, hcomm, hbills]
      dsimp only
      rw [if_neg (List.cons_ne_nil b2 rest)]
      split
      · split
        · split
          · simp [ItemResult.logs]
          · split
            · simp [ItemResult.logs]
            · split
              · simp [ItemResult.logs]
              · rw [produce_logs]
                simp
        · simp [ItemResult.logs]
      · split
        · simp [ItemResult.logs]
        · rw [produce_logs]
          simp
    · intro bd hbd
      simp only [processItem] at hbd
      rw [if_neg (not_not_intro hclass), if_neg hflag, hcomm, hbills] at hbd
      dsimp only at hbd
      rw [if_neg (List.cons_ne_nil b2 rest)] at hbd
      split at hbd
      · split at hbd
        · split at hbd
          · simp [ItemResult.outputs] at hbd
          · split at hbd
            · simp [ItemResult.outputs] at hbd
            · split at hbd
              · simp [ItemResult.outputs] at hbd
              · rw [produce_outputs] at hbd
                simp only [List.mem_cons, List.mem_singleton] at hbd
                rcases hbd with h | h | h
                · cases h
                  rfl
                · cases h
                · cases h
        · simp [ItemResult.outputs] at hbd
      · split at hbd
        · simp [ItemResult.outputs] at hbd
        · rw [produce_outputs] at hbd
          simp only [List.mem_cons, List.mem_singleton] at hbd
          rcases hbd with h | h | h
          · cases h
            rfl
          · cases h
          · cases h

/-- C6 witness: the no-bill item is skipped with exactly one logged error, and
the two-bill item logs the anomaly. -/
theorem C6_bill_reference_extraction_witness :
    processItem false "now" "pkg" [] ⟨none, false⟩ sampleNoBill =
      .ok [] ["Could not get bill data for " ++ "NB-1" ++ ": " ++ unescapeTitle "NoBill"]
        0 ⟨none, false⟩ ∧
    ("Multiple bills associated with " ++ "PL-2") ∈
      (processItem false "now" "pkg" [] ⟨none, false⟩ sampleTwoBill).logs := by
  constructor
  · exact C6_bill_reference_extraction.1 false "now" "pkg" [] ⟨none, false⟩ sampleNoBill []
      (by decide) (by decide) (by decide) rfl
  · exact (C6_bill_reference_extraction.2 false "now" "pkg" [] ⟨none, false⟩ sampleTwoBill []
      ⟨"82", "HR", "2"⟩ ⟨"82", "HR", "3"⟩ [] (by decide) (by decide) (by decide) rfl).1

end Statutes
namespace Statutes

/-- C1 counterexample: this item's Law Reference congress (83) differs from its
Bill Reference congress (82), and it yields zero output records, but it emits
two logged errors rather than exactly one, because its two bill sub-records
additionally trigger the multiple-bills anomaly log (statutes.py line 171). -/
theorem C1_counterexample :
    sampleTwoBill.laws.map (fun l => l.congress) = ["83"] ∧
    sampleTwoBill.bills.map (fun b => b.congress) = ["82", "82"] ∧
    (processItem false "now" "pkg" [] ⟨none, false⟩ sampleTwoBill).outputs = [] ∧
    (processItem false "now" "pkg" [] ⟨none, false⟩ sampleTwoBill).logs.length = 2 := by
  decide

/-- C1 (amended): for every processed item with exactly one bill sub-record and
exactly one law sub-record whose congress attributes differ, the item produces
zero output records and exactly one logged error (the congress-mismatch
message), and processing continues with the next item, the law congress having
been recorded in the loop state; items with multiple bill or law sub-records
additionally log their anomaly errors. -/
theorem C1_congress_mismatch (tm : Bool) (now pk : String)
    (names : List (String × String)) (st : LoopState) (item : Item)
    (cs : List CommitteeInfo) (b : BillElem) (l : LawElem)
    (hclass : item.granuleClass ∈ ["PUBLICLAW", "PRIVATELAW", "HCONRES", "SCONRES", "CONSTAMEND"])
    (hflag : ¬ (item.granuleClass = "CONSTAMEND" ∧ item.isProposedAmendment = none))
    (hcomm : extractCommittees names item = some cs)
    (hbills : item.bills = [b]) (hlaws : item.laws = [l])
    (hneq : l.congress ≠ b.congress) :
    processItem tm now pk names st item =
      .ok [] [mismatchMsg (lowerStr b.type) b.number b.congress l.congress] 0
        ⟨some l.congress, st.plaintext⟩ := by
  simp only [processItem]
  rw [if_neg (not_not_intro hclass), if_neg hflag, hcomm, hbills, hlaws]
  dsimp only
  rw [if_pos rfl, if_pos rfl, if_pos hneq]
  simp

/-- C1 witness: a concrete public-law item with bill congress 82 and law
congress 83 is skipped with exactly the single mismatch error. -/
theorem C1_congress_mismatch_witness :
    processItem false "now" "pkg" [] ⟨none, false⟩
      ⟨"M", none, "PUBLICLAW", "PM-1", "1951-07-07", none, none, [⟨"82", "HR", "9"⟩],
       "s", "65", "7", "1", [⟨"83", "103", "false"⟩], "HOUSE", "p7"⟩ =
      .ok [] [mismatchMsg (lowerStr "HR") "9" "82" "83"] 0 ⟨some "83", false⟩ :=
  C1_congress_mismatch false "now" "pkg" [] ⟨none, false⟩ _ [] ⟨"82", "HR", "9"⟩
    ⟨"83", "103", "false"⟩ (by decide) (by decide) (by decide) rfl rfl (by decide)

/-- C2: the code evaluated at the failing input. A CONSTAMEND item whose
isProposedAmendment element is present with the value "false" is a
ratification notice per the claim and should be logged and skipped with zero
output records; instead the code fully processes it — no log, one Bill Record
and one Bill-Version Stub — because statutes.py line 143 compares the lxml
Element object itself (never its text) with the string "false", a comparison
that is always False. -/
theorem C2_code_evaluation :
    sampleCAFalse.granuleClass = "CONSTAMEND" ∧
    sampleCAFalse.isProposedAmendment = some "false" ∧
    (processItem false "now" "pkg" [] ⟨none, false⟩ sampleCAFalse).logs = [] ∧
    (processItem false "now" "pkg" [] ⟨none, false⟩ sampleCAFalse).outputs.countP
      Output.isBill = 1 ∧
    (processItem false "now" "pkg" [] ⟨none, false⟩ sampleCAFalse).outputs.length = 2 := by
  decide

/-- C3: a resolution or constitutional-amendment item with no law sub-record
derives a "vote" Action whose chamber is the opposite of the item's origin
chamber (HOUSE yields "s", SENATE yields "h"), with result "pass", how
"unknown", and status PASSED:CONSTAMEND for constitutional amendments and
PASSED:CONCURRENTRES otherwise; every Bill Record the item produces carries
exactly that Action. -/
theorem C3_resolution_vote_action (item : Item)
    (hclass : item.granuleClass ∈ ["HCONRES", "SCONRES", "CONSTAMEND"])
    (hlaws : item.laws = [])
    (horigin : item.originChamber = "HOUSE" ∨ item.originChamber = "SENATE") :
    ∃ w : String,
      otherChamber item.originChamber = some w ∧
      w = (if item.originChamber = "HOUSE" then "s" else "h") ∧
      (mkVoteAction w item.granuleDate item.granuleClass).type = "vote" ∧
      (mkVoteAction w item.granuleDate item.granuleClass).where_ = some w ∧
      (mkVoteAction w item.granuleDate item.granuleClass).result = some "pass" ∧
      (mkVoteAction w item.granuleDate item.granuleClass).how = some "unknown" ∧
      (mkVoteAction w item.granuleDate item.granuleClass).status =
        (if item.granuleClass = "CONSTAMEND" then "PASSED:CONSTAMEND"
         else "PASSED:CONCURRENTRES") ∧
      (∀ (tm : Bool) (now pk : String) (names : List (String × String)) (st : LoopState)
        (bd : BillData),
        Output.bill bd ∈ (processItem tm now pk names st item).outputs →
        bd.actions = [mkVoteAction w item.granuleDate item.granuleClass]) := by
  have hclass3 : item.granuleClass = "HCONRES" ∨ item.granuleClass = "SCONRES" ∨
      item.granuleClass = "CONSTAMEND" := by
    simpa using hclass
  have hclass5 : item.granuleClass ∈
      ["PUBLICLAW", "PRIVATELAW", "HCONRES", "SCONRES", "CONSTAMEND"] := by
    rcases hclass3 with h | h | h <;> simp [h]
  obtain ⟨w, hw, hwval⟩ : ∃ w, otherChamber item.originChamber = some w ∧
      w = (if item.originChamber = "HOUSE" then "s" else "h") := by
    rcases horigin with h | h <;> refine ⟨_, ?_, rfl⟩ <;> simp [otherChamber, h]
  refine ⟨w, hw, hwval, rfl, rfl, rfl, rfl, rfl, ?_⟩
  intro tm now pk names st bd hbd
  simp only [processItem] at hbd
  rw [if_neg (not_not_intro hclass5)] at hbd
  simp only [hlaws, eq_true hclass, if_true, hw] at hbd
  split at hbd
  · simp [ItemResult.outputs] at hbd
  · split at hbd
    · simp [ItemResult.outputs] at hbd
    · split at hbd
      · simp [ItemResult.outputs] at hbd
      · split at hbd
        · simp [ItemResult.outputs] at hbd
        · split at hbd
          · simp [ItemResult.outputs] at hbd
          · rw [produce_outputs] at hbd
            simp only [List.mem_cons, List.mem_singleton] at hbd
            rcases hbd with h | h | h
            · cases h
              rfl
            · cases h
            · cases h

end Statutes

namespace Statutes

/-- C3 witness: a Senate-originated concurrent resolution derives the vote
action recorded in the House chamber with status PASSED:CONCURRENTRES. -/
theorem C3_resolution_vote_action_witness :
    otherChamber sampleRes.originChamber = some "h" ∧
    (mkVoteAction "h" sampleRes.granuleDate sampleRes.granuleClass).where_ = some "h" ∧
    (mkVoteAction "h" sampleRes.granuleDate sampleRes.granuleClass).status =
      "PASSED:CONCURRENTRES" := by
  obtain ⟨w, hw, hwval, htype, hwhere, hres, hhow, hstat, hout⟩ :=
    C3_resolution_vote_action sampleRes (by decide) rfl (Or.inr rfl)
  have hwh : w = "h" := by rw [hwval]; decide
  subst hwh
  refine ⟨hw, hwhere, ?_⟩
  rw [hstat]
  decide

theorem produce_eq (tm : Bool) (now : String) (preLogs : List String)
    (newLC : Option String) (st : LoopState) (titles : List TitleRec)
    (subject : Option String) (cs : List CommitteeInfo) (sources : List SourceRec)
    (bill_type : String) (b : BillElem) (item : Item) (action : Action) :
    produce tm now preLogs newLC st titles subject cs sources bill_type b item action =
      .ok [.bill (mkBillData now titles subject cs sources bill_type b action),
           .version (mkBillVersion bill_type b item.pdfUrl (latest_status [action]).2)]
        (preLogs ++ (if st.plaintext && tm then ["pdftotext not available"] else []))
        (if st.plaintext then 1 else 0)
        ⟨newLC, st.plaintext && !tm⟩ := by
  unfold produce
  by_cases h1 : st.plaintext <;> by_cases h2 : tm <;> simp [h1, h2]

/-- C4: every law-classified item with a single bill reference and a matching
law reference produces exactly a Bill Record and a Bill-Version Stub; the
record's single Action is the enacted action, which has type "enacted",
status ENACTED:SIGNED, and a non-empty description containing the law number.
In particular the sample item with bill (82, hr, 1) and law (82, 100, public)
yields bill id hr1-82 and action text "Became Public Law No: 82-100.". -/
theorem C4_enacted_action :
    (∀ (tm : Bool) (now pk : String) (names : List (String × String)) (st : LoopState)
      (item : Item) (cs : List CommitteeInfo) (b : BillElem) (l : LawElem),
      (item.granuleClass = "PUBLICLAW" ∨ item.granuleClass = "PRIVATELAW") →
      extractCommittees names item = some cs →
      item.bills = [b] → item.laws = [l] → l.congress = b.congress →
      ∃ (bd : BillData) (bv : BillVersion) (logs : List String) (tr : Nat) (st' : LoopState),
        processItem tm now pk names st item = .ok [.bill bd, .version bv] logs tr st' ∧
        bd.actions = [mkEnactedAction l item.granuleDate] ∧
        (mkEnactedAction l item.granuleDate).type = "enacted" ∧
        (mkEnactedAction l item.granuleDate).status = "ENACTED:SIGNED" ∧
        ∃ txt : String, (mkEnactedAction l item.granuleDate).text = some txt ∧
          txt ≠ "" ∧ ∃ s1 s2 : String, txt = s1 ++ l.number ++ s2) ∧
    ((firstBill (processItem false "now" "pkg" [] ⟨none, false⟩ sampleLaw).outputs).map
      (fun bd => (bd.bill_id, bd.actions.map (fun a => (a.text, a.status)))) =
      some ("hr1-82", [(some "Became Public Law No: 82-100.", "ENACTED:SIGNED")])) := by
  constructor
  · intro tm now pk names st item cs b l hclass hcomm hbills hlaws heq
    have hclass5 : item.granuleClass ∈
        ["PUBLICLAW", "PRIVATELAW", "HCONRES", "SCONRES", "CONSTAMEND"] := by
      rcases hclass with h | h <;> simp [h]
    have hflag : ¬ (item.granuleClass = "CONSTAMEND" ∧ item.isProposedAmendment = none) := by
      rcases hclass with h | h <;> simp [h]
    simp only [processItem]
    rw [if_neg (not_not_intro hclass5), if_neg hflag, hcomm, hbills, hlaws]
    dsimp only
    rw [if_pos rfl, if_pos rfl, if_neg (not_not_intro heq), produce_eq]
    refine ⟨_, _, _, _, _, rfl, rfl, rfl, rfl, _, rfl,
      ?_, ⟨"Became " ++ capitalize (lawTypeOf l) ++ " Law No: " ++ l.congress ++ "-", ".", rfl⟩⟩
    intro hempty
    have h' := congrArg String.length hempty
    rw [String.length_append] at h'
    simp only [show ("." : String).length = 1 from rfl,
      show ("" : String).length = 0 from rfl] at h'
    omega
  · decide

/-- C4 witness: at the sample public-law item the produced Bill Record's
action list is exactly the enacted action derived from law (82, 100). -/
theorem C4_enacted_action_witness :
    (firstBill (processItem false "now" "pkg" [] ⟨none, false⟩ sampleLaw).outputs).map
      (fun bd => bd.actions) = some [mkEnactedAction ⟨"82", "100", "false"⟩ "1951-10-20"] := by
  obtain ⟨bd, bv, logs, tr, st', hproc, hact, -⟩ :=
    C4_enacted_action.1 false "now" "pkg" [] ⟨none, false⟩ sampleLaw [] ⟨"82", "HR", "1"⟩
      ⟨"82", "100", "false"⟩ (Or.inl rfl) (by decide) rfl rfl rfl
  rw [hproc]
  simp [firstBill, ItemResult.outputs, hact, sampleLaw]

end Statutes
namespace Statutes

/-- C8 counterexample: with pdftotext missing and plaintext extraction
requested, a run of two volumes each holding one qualifying item attempts the
extraction once in each volume and logs the failure both times — the second
batch attempts again after the first batch's failure, so extraction is not
disabled for the remainder of the entire run. -/
theorem C8_counterexample :
    (processRun true "now" "pkg" [] true [[sampleLaw], [sampleLaw]]).map
      (fun r => r.tries) = [1, 1] ∧
    (processRun true "now" "pkg" [] true [[sampleLaw], [sampleLaw]]).map
      (fun r => r.logs) = [["pdftotext not available"], ["pdftotext not available"]] := by
  decide

theorem processItem_tries_bound (now pk : String) (names : List (String × String))
    (st : LoopState) (item : Item) (outs : List Output) (logs : List String)
    (t : Nat) (st' : LoopState)
    (h : processItem true now pk names st item = .ok outs logs t st') :
    t + (if st'.plaintext then 1 else 0) ≤ (if st.plaintext then 1 else 0) := by
  simp only [processItem] at h
  split at h
  · cases h
    simp
  · split at h
    · cases h
      simp
    · split at h
      · simp at h
      · split at h
        · cases h
          simp
        · split at h
          · split at h
            · split at h
              · simp at h
              · split at h
                · simp at h
                · split at h
                  · cases h
                    simp
                  · rw [produce_eq] at h
                    rcases hp : st.plaintext <;> simp [hp] at h <;>
                      rcases h with ⟨h1, h2, h3, h4⟩ <;> subst h3 <;> subst h4 <;> simp
            · cases h
              simp
          · split at h
            · cases h
              simp
            · rw [produce_eq] at h
              rcases hp : st.plaintext <;> simp [hp] at h <;>
                rcases h with ⟨h1, h2, h3, h4⟩ <;> subst h3 <;> subst h4 <;> simp

theorem processItems_tries_bound (now pk : String) (names : List (String × String))
    (items : List Item) :
    ∀ st : LoopState,
      (processItems true now pk names st items).tries ≤ (if st.plaintext then 1 else 0) := by
  induction items with
  | nil =>
    intro st
    simp [processItems]
  | cons item rest ih =>
    intro st
    simp only [processItems]
    split
    · simp
    · rename_i outs logs t st' heq
      have hb := processItem_tries_bound now pk names st item outs logs t st' heq
      have hr := ih st'
      dsimp only
      omega

theorem processItem_fail_logged (now pk : String) (names : List (String × String))
    (st : LoopState) (item : Item) :
    "pdftotext not available" ∈ (processItem true now pk names st item).logs ∨
    (processItem true now pk names st item).tries = 0 := by
  simp only [processItem]
  split
  · right; rfl
  · split
    · right; rfl
    · split
      · right; rfl
      · split
        · right; rfl
        · split
          · split
            · split
              · right; rfl
              · split
                · right; rfl
                · split
                  · right; rfl
                  · rw [produce_eq]
                    by_cases hp : st.plaintext
                    · left
                      simp [hp, ItemResult.logs]
                    · right
                      simp [hp, ItemResult.tries]
            · right; rfl
          · split
            · right; rfl
            · rw [produce_eq]
              by_cases hp : st.plaintext
              · left
                simp [hp, ItemResult.logs]
              · right
                simp [hp, ItemResult.tries]

theorem ItemResult.tries_of_crash (r : ItemResult) (h : r.isCrash = true) : r.tries = 0 := by
  cases r
  · rfl
  · simp [ItemResult.isCrash] at h

/-- C8 (amended): the degrade-once policy is scoped to a single batch, not the
entire run. Each batch re-reads the plaintext option afresh; within one batch,
when the tool is missing, at most one extraction attempt is made; an item that
made the (failing) attempt logs the pdftotext failure and does not crash the
batch. -/
theorem C8_plaintext_degrade_per_batch :
    (∀ (now pk : String) (names : List (String × String)) (opt : Bool)
      (vols : List (List Item)),
      processRun true now pk names opt vols =
        vols.map (fun items => processItems true now pk names ⟨none, opt⟩ items)) ∧
    (∀ (now pk : String) (names : List (String × String)) (st : LoopState)
      (items : List Item),
      (processItems true now pk names st items).tries ≤ 1) ∧
    (∀ (now pk : String) (names : List (String × String)) (st : LoopState) (item : Item),
      (processItem true now pk names st item).tries = 1 →
      "pdftotext not available" ∈ (processItem true now pk names st item).logs ∧
      (processItem true now pk names st item).isCrash = false) := by
  refine ⟨fun now pk names opt vols => rfl, ?_, ?_⟩
  · intro now pk names st items
    have := processItems_tries_bound now pk names items st
    split at this <;> omega
  · intro now pk names st item ht
    have hd := processItem_fail_logged now pk names st item
    have hmem : "pdftotext not available" ∈ (processItem true now pk names st item).logs := by
      rcases hd with h | h
      · exact h
      · omega
    refine ⟨hmem, ?_⟩
    by_contra hcr
    have hcr' : (processItem true now pk names st item).isCrash = true := by
      simpa using hcr
    have h0 := ItemResult.tries_of_crash _ hcr'
    omega

/-- C8 witness: at a concrete qualifying item with the plaintext flag still
set and the tool missing, the attempt is made, the failure is logged and the
item does not crash. -/
theorem C8_plaintext_degrade_per_batch_witness :
    "pdftotext not available" ∈
      (processItem true "now" "pkg" [] ⟨none, true⟩ sampleLaw).logs ∧
    (processItem true "now" "pkg" [] ⟨none, true⟩ sampleLaw).isCrash = false :=
  C8_plaintext_degrade_per_batch.2.2 "now" "pkg" [] ⟨none, true⟩ sampleLaw (by decide)

end Statutes
namespace Statutes

theorem processItem_outputs_shape (tm : Bool) (now pk : String)
    (names : List (String × String)) (st : LoopState) (item : Item) :
    (processItem tm now pk names st item).outputs = [] ∨
    ∃ (titles : List TitleRec) (subject : Option String) (cs : List CommitteeInfo)
      (sources : List SourceRec) (bill_type : String) (b : BillElem) (action : Action),
      (processItem tm now pk names st item).outputs =
        [.bill (mkBillData now titles subject cs sources bill_type b action),
         .version (mkBillVersion bill_type b item.pdfUrl (latest_status [action]).2)] := by
  simp only [processItem]
  split
  · left; rfl
  · split
    · left; rfl
    · split
      · left; rfl
      · split
        · left; rfl
        · split
          · split
            · split
              · left; rfl
              · split
                · left; rfl
                · split
                  · left; rfl
                  · right
                    rw [produce_eq]
                    exact ⟨_, _, _, _, _, _, _, rfl⟩
            · left; rfl
          · split
            · left; rfl
            · right
              rw [produce_eq]
              exact ⟨_, _, _, _, _, _, _, rfl⟩

/-- C9: whenever an item produces a Bill Record, it also produces a
Bill-Version Stub whose id is the record's type+number-congress extended by
the fixed enrolled version code "enr", whose version_code is "enr", whose
issued_on equals the Bill Record's derived status date, and whose url pointer
is the item's PDF rendition location field. -/
theorem C9_version_stub (tm : Bool) (now pk : String) (names : List (String × String))
    (st : LoopState) (item : Item) (bd : BillData)
    (hbd : Output.bill bd ∈ (processItem tm now pk names st item).outputs) :
    ∃ bv : BillVersion,
      Output.version bv ∈ (processItem tm now pk names st item).outputs ∧
      bv.bill_version_id = bd.bill_type ++ bd.number ++ "-" ++ bd.congress ++ "-" ++ "enr" ∧
      bv.version_code = "enr" ∧ bv.issued_on = bd.status_at ∧
      bv.urls_pdf = item.pdfUrl := by
  rcases processItem_outputs_shape tm now pk names st item with h |
    ⟨titles, subject, cs, sources, bill_type, b, action, h⟩
  · rw [h] at hbd
    simp at hbd
  · rw [h] at hbd ⊢
    simp only [List.mem_cons, List.not_mem_nil, or_false] at hbd
    rcases hbd with heq | heq
    · cases heq
      refine ⟨mkBillVersion bill_type b item.pdfUrl (latest_status [action]).2,
        by simp, rfl, rfl, rfl, rfl⟩
    · cases heq

/-- C9 witness: the sample law item's version stub accompanies its Bill
Record with the enrolled version id, the record's status date and the item's
PDF url. -/
theorem C9_version_stub_witness :
    ∃ bv : BillVersion,
      Output.version bv ∈ (processItem false "now" "pkg" [] ⟨none, false⟩ sampleLaw).outputs ∧
      bv.bill_version_id = sampleBillRecord.bill_type ++ sampleBillRecord.number ++ "-" ++
        sampleBillRecord.congress ++ "-" ++ "enr" ∧
      bv.version_code = "enr" ∧ bv.issued_on = sampleBillRecord.status_at ∧
      bv.urls_pdf = sampleLaw.pdfUrl :=
  C9_version_stub false "now" "pkg" [] ⟨none, false⟩ sampleLaw sampleBillRecord (by decide)

/-- C10: the congress-mismatch check runs for every item, including
resolution/amendment items with no law sub-record; for such an item the law
congress variable is not reassigned, so when no earlier item of the volume
set it (loop state none) processing raises the unbound-variable NameError
instead of completing, and otherwise the item produces output if and only if
the stale law congress of the most recently processed law-bearing item equals
the item's own bill congress. -/
theorem C10_stale_law_congress (tm : Bool) (now pk : String)
    (names : List (String × String)) (st : LoopState) (item : Item)
    (cs : List CommitteeInfo) (b : BillElem) (w : String)
    (hclass : item.granuleClass ∈ ["HCONRES", "SCONRES", "CONSTAMEND"])
    (hflag : ¬ (item.granuleClass = "CONSTAMEND" ∧ item.isProposedAmendment = none))
    (hcomm : extractCommittees names item = some cs)
    (hbills : item.bills = [b]) (hlaws : item.laws = [])
    (hw : otherChamber item.originChamber = some w) :
    (st.lawCongress = none →
      processItem tm now pk names st item = .crash "NameError: law_congress" []) ∧
    (∀ lc : String, st.lawCongress = some lc →
      ((processItem tm now pk names st item).outputs ≠ [] ↔ lc = b.congress)) := by
  have hclass5 : item.granuleClass ∈
      ["PUBLICLAW", "PRIVATELAW", "HCONRES", "SCONRES", "CONSTAMEND"] := by
    have := hclass
    simp only [List.mem_cons, List.not_mem_nil, or_false] at this
    rcases this with h | h | h <;> simp [h]
  constructor
  · intro hnone
    simp only [processItem]
    rw [if_neg (not_not_intro hclass5), if_neg hflag, hcomm, hbills, hlaws]
    dsimp only
    rw [if_pos rfl, if_pos hclass, hw, hnone]
  · intro lc hsome
    simp only [processItem]
    rw [if_neg (not_not_intro hclass5), if_neg hflag, hcomm, hbills, hlaws]
    dsimp only
    rw [if_pos rfl, if_pos hclass, hw, hsome]
    dsimp only
    by_cases hne : lc = b.congress
    · rw [if_neg (not_not_intro hne), produce_eq]
      simp [ItemResult.outputs, hne]
    · rw [if_pos hne]
      simp [ItemResult.outputs, hne]

/-- C10 witness: with no earlier law-bearing item the sample law-less
resolution crashes with the NameError; with a stale matching law congress
("82") it produces output. -/
theorem C10_stale_law_congress_witness :
    processItem false "now" "pkg" [] ⟨none, false⟩ sampleRes =
      .crash "NameError: law_congress" [] ∧
    (processItem false "now" "pkg" [] ⟨some "82", false⟩ sampleRes).outputs ≠ [] := by
  constructor
  · exact (C10_stale_law_congress false "now" "pkg" [] ⟨none, false⟩ sampleRes []
      ⟨"82", "SCON", "5"⟩ "h" (by decide) (by decide) (by decide) rfl rfl (by decide)).1 rfl
  · exact ((C10_stale_law_congress false "now" "pkg" [] ⟨some "82", false⟩ sampleRes []
      ⟨"82", "SCON", "5"⟩ "h" (by decide) (by decide) (by decide) rfl rfl (by decide)).2
      "82" rfl).mpr rfl

end Statutes
